import Mathlib

/-!
Verification of the eyetracking-data-correction repository
(`fakedata.py`, `corruptdata.py`, `eyedata.py`).

Numbers are modelled as rationals (`ℚ`): the Python code does exact
arithmetic on the inputs we reason about, and `ℚ` keeps every definition
executable and every equality decidable.

A sample is a `[t, x, y]` row (column constants `T, X, Y = 0, 1, 2` in
`eyedata.py`); we model the row as a record with the three named columns.
-/

/-- One `[t, x, y]` row of a sample batch (columns `T=0, X=1, Y=2`). -/
@[ext]
structure Sample where
  t : ℚ
  x : ℚ
  y : ℚ
deriving DecidableEq, Repr

/-- Python-level failures surfaced by the embedded code.
`configError` stands for the eager construction-time validation failures
(the bare `assert` statements in the constructors, which the spec's
taxonomy groups under the name `ConfigurationError`); `valueError` is the
`ValueError` that `max([])` raises; `zeroDivisionError` is Python's
`ZeroDivisionError`. -/
inductive PyErr where
  | configError
  | valueError
  | zeroDivisionError
deriving DecidableEq, Repr

/-! ## `corruptdata.py` — ShiftEyeTrackingData -/

/-- The attributes a constructed `ShiftEyeTrackingData` instance stores
(`corruptdata.py` lines 36-42). -/
structure ShiftEyeTrackingData where
  shift_x : ℚ
  shift_y : ℚ
  t0 : ℚ
  t1 : ℚ
deriving DecidableEq, Repr

/-- Embeds `ShiftEyeTrackingData.__init__` (`corruptdata.py` lines 32-43):
stores
the four parameters and then runs `assert t0 <= t1`. -/
def ShiftEyeTrackingData.init (shift_x shift_y t0 t1 : ℚ) :
    Except PyErr ShiftEyeTrackingData :=
  if t0 ≤ t1 then .ok ⟨shift_x, shift_y, t0, t1⟩ else .error .configError

/-- The effect of `ShiftEyeTrackingData._execute` (lines 48-58) on a single
row.  `where = S.where(ts > self.t0)` masks the rows with `t > t0`; on the
masked rows, when `shift_x != 0`, the code adds
`S.minimum(t - t0, dt_max) * slope_x` with `slope_x = shift_x / (t1 - t0)`
and `dt_max = t1 - t0`; same for y with `shift_y`. -/
def ShiftEyeTrackingData.row (s : ShiftEyeTrackingData) (p : Sample) : Sample :=
  let slope_x := s.shift_x / (s.t1 - s.t0)
  let slope_y := s.shift_y / (s.t1 - s.t0)
  let dt_max := s.t1 - s.t0
  { t := p.t
    x := if s.shift_x ≠ 0 ∧ s.t0 < p.t then
           p.x + min (p.t - s.t0) dt_max * slope_x
         else p.x
    y := if s.shift_y ≠ 0 ∧ s.t0 < p.t then
           p.y + min (p.t - s.t0) dt_max * slope_y
         else p.y }

/-- Embeds `ShiftEyeTrackingData._execute` (lines 48-58).  The slopes
`shift_x / (t1 - t0)` and `shift_y / (t1 - t0)` are computed up front, so
the call raises `ZeroDivisionError` whenever `t1 - t0 = 0`, before any row
is touched; otherwise each row is updated as in
`ShiftEyeTrackingData.row`. -/
def ShiftEyeTrackingData.execute (s : ShiftEyeTrackingData)
    (data : List Sample) : Except PyErr (List Sample) :=
  if s.t1 - s.t0 = 0 then .error .zeroDivisionError
  else .ok (data.map s.row)

/-- The x-offset `_execute` applies to a row with timestamp `t`
(0 outside the `t > t0` mask). -/
def ShiftEyeTrackingData.offX (s : ShiftEyeTrackingData) (t : ℚ) : ℚ :=
  if s.t0 < t then min (t - s.t0) (s.t1 - s.t0) * (s.shift_x / (s.t1 - s.t0))
  else 0

/-- The y-offset `_execute` applies to a row with timestamp `t`. -/
def ShiftEyeTrackingData.offY (s : ShiftEyeTrackingData) (t : ℚ) : ℚ :=
  if s.t0 < t then min (t - s.t0) (s.t1 - s.t0) * (s.shift_y / (s.t1 - s.t0))
  else 0

/-! ## `corruptdata.py` — JerkEyeTrackingData -/

/-- The attributes a constructed `JerkEyeTrackingData` instance stores.
Note (`corruptdata.py` lines 69-73): the constructor parameter `jerk_at_t`
is stored under the attribute name `jerk_at`. -/
structure JerkEyeTrackingData where
  jerk_at : ℚ
  jerk_x : ℚ
  jerk_y : ℚ
deriving DecidableEq, Repr

/-- The effect of `JerkEyeTrackingData._execute` (lines 77-83) on a single
row: `where = S.where(data[:,T] >= self.jerk_at)`; on the masked rows the
code adds `jerk_x` to x when `jerk_x != 0` and `jerk_y` to y when
`jerk_y != 0`. -/
def JerkEyeTrackingData.row (j : JerkEyeTrackingData) (p : Sample) : Sample :=
  { t := p.t
    x := if j.jerk_x ≠ 0 ∧ j.jerk_at ≤ p.t then p.x + j.jerk_x else p.x
    y := if j.jerk_y ≠ 0 ∧ j.jerk_at ≤ p.t then p.y + j.jerk_y else p.y }

/-- Embeds `JerkEyeTrackingData._execute` (lines 77-83): row-wise update,
never
fails. -/
def JerkEyeTrackingData.execute (j : JerkEyeTrackingData)
    (data : List Sample) : List Sample :=
  data.map j.row

/-- The x-offset Jerk applies to a row with timestamp `t`. -/
def JerkEyeTrackingData.offX (j : JerkEyeTrackingData) (t : ℚ) : ℚ :=
  if j.jerk_at ≤ t then j.jerk_x else 0

/-- The y-offset Jerk applies to a row with timestamp `t`. -/
def JerkEyeTrackingData.offY (j : JerkEyeTrackingData) (t : ℚ) : ℚ :=
  if j.jerk_at ≤ t then j.jerk_y else 0

/-- The attribute names `JerkEyeTrackingData.__init__` stores on the
instance (`corruptdata.py` lines 71-73). -/
def JerkEyeTrackingData.attrNames : List String :=
  ["jerk_at", "jerk_x", "jerk_y"]

/-- Python attribute lookup on a constructed `JerkEyeTrackingData`
instance: `some` value for a stored attribute, `none` (= `AttributeError`)
otherwise. -/
def JerkEyeTrackingData.getattr (j : JerkEyeTrackingData) (name : String) :
    Option ℚ :=
  if name = "jerk_at" then some j.jerk_at
  else if name = "jerk_x" then some j.jerk_x
  else if name = "jerk_y" then some j.jerk_y
  else none

/-- The attribute reads `JerkEyeTrackingData.__str__` performs
(`corruptdata.py` line 86: `self.jerk_at_t`, `self.jerk_x`,
`self.jerk_y`); the formatted string exists only if all three reads
succeed. -/
def JerkEyeTrackingData.strReads (j : JerkEyeTrackingData) :
    Option (ℚ × ℚ × ℚ) := do
  let a ← j.getattr "jerk_at_t"
  let b ← j.getattr "jerk_x"
  let c ← j.getattr "jerk_y"
  pure (a, b, c)

/-! ## `fakedata.py` — EyeTrackerFakeDataSource -/

/-- A 2×2 covariance matrix (only its identity as a value matters for the
construction-time length checks we verify). -/
structure Mat2 where
  a : ℚ
  b : ℚ
  c : ℚ
  d : ℚ
deriving DecidableEq, Repr

/-- The default circular blob `S.array([[1,0],[0,1]])`
(`fakedata.py` line 81). -/
def ident2 : Mat2 := ⟨1, 0, 0, 1⟩

/-- The `ranges = [[xmin, xmax], [ymin, ymax]]` rectangle, with the two
axis pairs as named fields. -/
structure Ranges where
  xmin : ℚ
  xmax : ℚ
  ymin : ℚ
  ymax : ℚ
deriving DecidableEq, Repr

/-- Python's `max` on a list of numbers: `ValueError` on the empty list
(this is what `max(self.sigmas)` at `fakedata.py` line 87 raises when
there are zero components). -/
def pyMax : List ℚ → Except PyErr ℚ
  | [] => .error .valueError
  | v :: vs => .ok (vs.foldl max v)

/-- Python's `min` on a list of numbers: `ValueError` on the empty list. -/
def pyMin : List ℚ → Except PyErr ℚ
  | [] => .error .valueError
  | v :: vs => .ok (vs.foldl min v)

/-- Embeds `S.arange(n) + 1 = [1, 2, ..., n]` (`fakedata.py` line 74, the
default
cumulative table when no `base_probabilities` are given). -/
def arangePlusOne (n : ℕ) : List ℚ :=
  (List.range n).map (fun i => (i : ℚ) + 1)

/-- Embeds `S.cumsum` (`fakedata.py` line 77): running sums of the list,
starting
from the accumulator `acc`. -/
def cumsumFrom (acc : ℚ) : List ℚ → List ℚ
  | [] => []
  | v :: vs => (acc + v) :: cumsumFrom (acc + v) vs

/-- Embeds `S.cumsum(base_probabilities)` (`fakedata.py` line 77). -/
def cumsum (l : List ℚ) : List ℚ := cumsumFrom 0 l

/-- The attributes a constructed `EyeTrackerFakeDataSource` stores (the
ones the sampling code reads). `cs` is `self._cs`, the cumulative-weight
table. -/
structure EyeTrackerFakeDataSource where
  locs : List (ℚ × ℚ)
  sigmas : List ℚ
  cs : List ℚ
  covariances : List Mat2
  ranges : Ranges
  dt : ℚ
  sigma_dt : ℚ
  uniform_random_fixations_probability : ℚ
deriving DecidableEq, Repr

/-- Embeds `EyeTrackerFakeDataSource.__init__` (`fakedata.py` lines 65-100).
An empty list passed for `sigmas`, `base_probabilities` or `covariances`
selects the documented default; a non-empty list must have length
`n = len(locs)` (`assert` ⇒ `configError`).  When `ranges` is `none` the
rectangle is derived as data range of the locations ± `4 * max(sigmas)`
(lines 86-89; `max` of the empty sigma list raises `ValueError` when
`n = 0`).  The well-formedness assert on an explicitly given `ranges`
(line 91, its list shape) is enforced by the `Ranges` type. -/
def EyeTrackerFakeDataSource.init (locs : List (ℚ × ℚ)) (sigmas : List ℚ)
    (base_probabilities : List ℚ) (covariances : List Mat2) (dt sigma_dt : ℚ)
    (ranges : Option Ranges) (uniform_random_fixations_probability : ℚ) :
    Except PyErr EyeTrackerFakeDataSource := do
  let n := locs.length
  let sigmas ←
    if sigmas = [] then pure (List.replicate n (1 : ℚ))
    else if sigmas.length = n then pure sigmas
    else throw .configError
  let cs ←
    if base_probabilities = [] then pure (arangePlusOne n)
    else if base_probabilities.length = n then pure (cumsum base_probabilities)
    else throw .configError
  let covs ←
    if covariances = [] then pure (List.replicate n ident2)
    else if covariances.length = n then pure covariances
    else throw .configError
  let rng ←
    match ranges with
    | some r => pure r
    | none => do
        let mx ← pyMax sigmas
        let margin := mx * 4
        let xmn ← pyMin (locs.map Prod.fst)
        let xmx ← pyMax (locs.map Prod.fst)
        let ymn ← pyMin (locs.map Prod.snd)
        let ymx ← pyMax (locs.map Prod.snd)
        pure ⟨xmn - margin, xmx + margin, ymn - margin, ymx + margin⟩
  pure ⟨locs, sigmas, cs, covs, rng, dt, sigma_dt,
        uniform_random_fixations_probability⟩

/-- The time update of `_sample` (`fakedata.py` lines 111-112):
`dt = S.absolute(normal_draw); self._t += dt`. -/
def advanceT (t dtDraw : ℚ) : ℚ := t + |dtDraw|

/-- The cumulative time after `n` pulls since `_reset` (which sets
`self._t = 0`, line 105), given the sequence `d` of raw
`Normal(dt, sigma_dt)` draws.  The counter lives on the instance, so it is
the same sequence regardless of how the pulls are grouped into
`samples(n)` batches. -/
def tSeq (d : ℕ → ℚ) : ℕ → ℚ
  | 0 => 0
  | n + 1 => advanceT (tSeq d n) (d n)

/-- The acceptance test of the rejection loop (`fakedata.py` lines
126-127): the candidate is kept iff `xr[0] < x < xr[1]` and
`yr[0] < y < yr[1]`; otherwise `continue` redraws. -/
def accepts (rg : Ranges) (x y : ℚ) : Bool :=
  (rg.xmin < x && x < rg.xmax) && (rg.ymin < y && y < rg.ymax)

/-- The rejection loop of `_sample` (`fakedata.py` lines 123-128): draw
from the chosen Gaussian (`gauss k` is the k-th multivariate-normal draw)
until a candidate passes `accepts`.  The Python loop is unbounded; `fuel`
caps the number of draws inspected and `none` means no accepted draw was
found among them. -/
def rejectionSample (rg : Ranges) (gauss : ℕ → ℚ × ℚ) : ℕ → Option (ℚ × ℚ)
  | 0 => none
  | fuel + 1 =>
    let p := gauss 0
    if accepts rg p.1 p.2 then some p
    else rejectionSample rg (fun i => gauss (i + 1)) fuel

/-- Decidable equality of `Except` results, so concrete runs of the
embedded code can be checked by `decide`. -/
instance exceptDecEq {ε α : Type} [DecidableEq ε] [DecidableEq α] :
    DecidableEq (Except ε α)
  | .ok a, .ok b =>
    if h : a = b then isTrue (by rw [h])
    else isFalse (fun hc => h (by injection hc))
  | .ok _, .error _ => isFalse (fun hc => nomatch hc)
  | .error _, .ok _ => isFalse (fun hc => nomatch hc)
  | .error e, .error f =>
    if h : e = f then isTrue (by rw [h])
    else isFalse (fun hc => h (by injection hc))

/-- Helper: `row` written with the additive offsets.  The `jerk_x ≠ 0`
fast-path guard is value-irrelevant: skipping the axis coincides with
adding 0. -/
theorem jerkRow_eq_off (j : JerkEyeTrackingData) (p : Sample) :
    j.row p = ⟨p.t, p.x + j.offX p.t, p.y + j.offY p.t⟩ := by
  unfold JerkEyeTrackingData.row JerkEyeTrackingData.offX JerkEyeTrackingData.offY
  by_cases hx : j.jerk_x = 0 <;> by_cases hy : j.jerk_y = 0 <;>
    by_cases ht : j.jerk_at ≤ p.t <;>
    simp [hx, hy, ht]

/-- Helper: `ShiftEyeTrackingData.row` written with the additive offsets.
When `shift_x = 0` the skipped axis coincides with adding 0 (the offset is
`min(...) * (0 / (t1-t0)) = 0`). -/
theorem shiftRow_eq_off (s : ShiftEyeTrackingData) (p : Sample) :
    s.row p = ⟨p.t, p.x + s.offX p.t, p.y + s.offY p.t⟩ := by
  unfold ShiftEyeTrackingData.row ShiftEyeTrackingData.offX ShiftEyeTrackingData.offY
  by_cases hx : s.shift_x = 0 <;> by_cases hy : s.shift_y = 0 <;>
    by_cases ht : s.t0 < p.t <;>
    simp [hx, hy, ht]

/-- Reduction of `Except` bind on a success value. -/
@[simp]
theorem exceptBind_ok {α β : Type} (a : α) (f : α → Except PyErr β) :
    (Except.ok a : Except PyErr α) >>= f = f a := rfl

/-- Reduction of `Except` bind on an error. -/
@[simp]
theorem exceptBind_error {α β : Type} (e : PyErr) (f : α → Except PyErr β) :
    (Except.error e : Except PyErr α) >>= f = .error e := rfl

/-- Reduction of `pure` in the `Except PyErr` monad to `Except.ok`. -/
@[simp]
theorem exceptPure_eq {α : Type} (a : α) :
    (pure a : Except PyErr α) = .ok a := rfl

/-- Reduction of `throw` in the `Except PyErr` monad to `Except.error`. -/
@[simp]
theorem exceptThrow_eq {α : Type} (e : PyErr) :
    (throw e : Except PyErr α) = .error e := rfl

/-! ## Claims -/

/-- Claim C3: Jerk is a step function: every sample with `t ≥ jerk_at_t` gets
exactly `jerk_x` added to x and `jerk_y` added to y, every sample with
`t < jerk_at_t` is unchanged, and on the batch with `t = [0,5,10,15]`,
`jerk_at_t = 10`, `jerk_x = 3`, `jerk_y = -2` the offsets are
`[0,0,3,3]` on x and `[0,0,-2,-2]` on y. -/
theorem jerk_step_function :
    (∀ (j : JerkEyeTrackingData) (p : Sample), j.jerk_at ≤ p.t →
        j.row p = ⟨p.t, p.x + j.jerk_x, p.y + j.jerk_y⟩) ∧
    (∀ (j : JerkEyeTrackingData) (p : Sample), p.t < j.jerk_at →
        j.row p = p) ∧
    JerkEyeTrackingData.execute ⟨10, 3, -2⟩
        [⟨0, 0, 0⟩, ⟨5, 0, 0⟩, ⟨10, 0, 0⟩, ⟨15, 0, 0⟩]
      = [⟨0, 0, 0⟩, ⟨5, 0, 0⟩, ⟨10, 3, -2⟩, ⟨15, 3, -2⟩] := by
  refine ⟨?_, ?_,
    by norm_num [JerkEyeTrackingData.execute, JerkEyeTrackingData.row]⟩
  · intro j p h
    rw [jerkRow_eq_off]
    simp [JerkEyeTrackingData.offX, JerkEyeTrackingData.offY, h]
  · intro j p h
    rw [jerkRow_eq_off]
    ext <;> simp [JerkEyeTrackingData.offX, JerkEyeTrackingData.offY, not_le.mpr h]

/-- Witness for C3: the step theorem applied at `jerk_at_t = 10`,
`jerk_x = 3`, `jerk_y = -2` to a sample at `t = 12` (offset applied) and a
sample at `t = 5` (unchanged). -/
theorem jerk_step_function_witness :
    JerkEyeTrackingData.row ⟨10, 3, -2⟩ ⟨12, 1, 1⟩ = ⟨12, 4, -1⟩ ∧
    JerkEyeTrackingData.row ⟨10, 3, -2⟩ ⟨5, 1, 1⟩ = ⟨5, 1, 1⟩ := by
  constructor
  · rw [jerk_step_function.1 ⟨10, 3, -2⟩ ⟨12, 1, 1⟩ (by norm_num)]
    ext <;> norm_num
  · exact jerk_step_function.2.1 ⟨10, 3, -2⟩ ⟨5, 1, 1⟩ (by norm_num)

/-- Claim C10: on every constructed `JerkEyeTrackingData` instance the
formatting code of `__str__`/`__repr__` fails with `AttributeError`: it
reads the attribute `jerk_at_t` (`corruptdata.py` line 86) while the
constructor stored the value under the name `jerk_at` (line 71), so the
first attribute read of `strReads` yields `none`. -/
theorem jerk_str_attribute_error :
    ∀ j : JerkEyeTrackingData,
      j.strReads = none ∧
      JerkEyeTrackingData.getattr j "jerk_at_t" = none ∧
      JerkEyeTrackingData.attrNames.contains "jerk_at_t" = false := by
  intro j
  refine ⟨rfl, rfl, by decide⟩

/-- Claim C7 (code bug evidence): `ShiftEyeTrackingData` constructed with
`t0 = t1 = 5` passes the constructor's `assert t0 <= t1`, yet `_execute`
raises `ZeroDivisionError` on every batch because it computes
`shift_x / (t1 - t0)` up front. -/
theorem shift_equal_window_zero_division :
    ShiftEyeTrackingData.init 1 1 5 5 = .ok ⟨1, 1, 5, 5⟩ ∧
    ShiftEyeTrackingData.execute ⟨1, 1, 5, 5⟩ [⟨0, 0, 0⟩]
      = .error .zeroDivisionError ∧
    ShiftEyeTrackingData.execute ⟨1, 1, 5, 5⟩ []
      = .error .zeroDivisionError := by
  refine ⟨?_, ?_, ?_⟩ <;>
    norm_num [ShiftEyeTrackingData.init, ShiftEyeTrackingData.execute]

/-- Claim C5: with `self._t` reset to 0 and each pull advancing the clock by the
absolute value of the raw `Normal(dt, sigma_dt)` draw, the cumulative
times are monotonically non-decreasing in the number of pulls — whatever
the draws are, and independently of how pulls are grouped into
`samples(n)` batches (the counter lives on the instance). -/
theorem t_values_monotone (d : ℕ → ℚ) (i k : ℕ) (h : i ≤ k) :
    tSeq d i ≤ tSeq d k := by
  induction h with
  | refl => exact le_refl _
  | step _ ih =>
    refine le_trans ih ?_
    show tSeq d _ ≤ advanceT (tSeq d _) _
    unfold advanceT
    exact le_add_of_nonneg_right (abs_nonneg _)

/-- Witness for C5: even with every raw draw negative (`-3`), the time
after 1 pull is at most the time after 2 pulls. -/
theorem t_values_monotone_witness :
    tSeq (fun _ => (-3 : ℚ)) 1 ≤ tSeq (fun _ => (-3 : ℚ)) 2 :=
  t_values_monotone (fun _ => (-3 : ℚ)) 1 2 (by norm_num)

/-- Counterexample to C1 as stated: the point `(0, 1/2)` lies on the
closed boundary of the `ranges` rectangle `[0,1] × [0,1]` (it has
`x = xmin`), yet the rejection test of `_sample` (lines 126-127,
`xr[0] < x < xr[1]`) rejects it — the boundary is open, not closed. -/
theorem boundary_point_rejected_counterexample :
    ((0 : ℚ) ≤ 0 ∧ (0 : ℚ) ≤ 1 ∧ (0 : ℚ) ≤ 1/2 ∧ (1/2 : ℚ) ≤ 1) ∧
    accepts ⟨0, 1, 0, 1⟩ 0 (1/2) = false := by
  refine ⟨by norm_num, ?_⟩
  norm_num [accepts]

/-- Claim C1 (amended): every mixture-drawn sample the rejection loop returns
lies strictly inside the `ranges` rectangle, and every candidate on the
rectangle's boundary fails the acceptance test (it is rejected and
redrawn): the boundary is open, not closed. -/
theorem rejection_loop_strictly_inside :
    (∀ (rg : Ranges) (gauss : ℕ → ℚ × ℚ) (fuel : ℕ) (q : ℚ × ℚ),
        rejectionSample rg gauss fuel = some q →
        rg.xmin < q.1 ∧ q.1 < rg.xmax ∧ rg.ymin < q.2 ∧ q.2 < rg.ymax) ∧
    (∀ (rg : Ranges) (x y : ℚ),
        x = rg.xmin ∨ x = rg.xmax ∨ y = rg.ymin ∨ y = rg.ymax →
        accepts rg x y = false) := by
  constructor
  · intro rg gauss fuel
    induction fuel generalizing gauss with
    | zero => intro q h; simp [rejectionSample] at h
    | succ n ih =>
      intro q h
      unfold rejectionSample at h
      by_cases hacc : accepts rg (gauss 0).1 (gauss 0).2
      · simp only [hacc, if_pos] at h
        obtain rfl : gauss 0 = q := by simpa using h
        unfold accepts at hacc
        simp only [Bool.and_eq_true, decide_eq_true_eq] at hacc
        exact ⟨hacc.1.1, hacc.1.2, hacc.2.1, hacc.2.2⟩
      · simp only [hacc, if_neg, Bool.false_eq_true, not_false_eq_true,
          ite_false] at h
        exact ih _ q h
  · intro rg x y h
    unfold accepts
    rcases h with h | h | h | h <;> subst h <;> simp

/-- Witness for C1 (amended): a loop over the rectangle `[0,1] × [0,1]`
that accepts its first draw `(1/2, 1/2)` returns a strictly interior
point, and the boundary point `(0, 1/4)` fails the acceptance test. -/
theorem rejection_loop_strictly_inside_witness :
    ((0 : ℚ) < 1/2 ∧ (1/2 : ℚ) < 1 ∧ (0 : ℚ) < 1/2 ∧ (1/2 : ℚ) < 1) ∧
    accepts ⟨0, 1, 0, 1⟩ 0 (1/4) = false :=
  ⟨rejection_loop_strictly_inside.1 ⟨0, 1, 0, 1⟩ (fun _ => (1/2, 1/2)) 1
      (1/2, 1/2) (by norm_num [rejectionSample, accepts]),
   rejection_loop_strictly_inside.2 ⟨0, 1, 0, 1⟩ 0 (1/4) (Or.inl rfl)⟩

/-- The per-row Shift update that claim C2 (spec §4.3/§8.4) describes,
written from the spec's words for comparison with the code's
`ShiftEyeTrackingData.row`: for `t ≥ start_at_t` add
`min(t − start_at_t, end_at_t − start_at_t) × shift_x` to x (treating
`shift_x` as a rate per unit time) and the analogous amount to y; below
`start_at_t` unchanged. -/
def shiftRowSpecClaim (s : ShiftEyeTrackingData) (p : Sample) : Sample :=
  if s.t0 ≤ p.t then
    ⟨p.t, p.x + min (p.t - s.t0) (s.t1 - s.t0) * s.shift_x,
          p.y + min (p.t - s.t0) (s.t1 - s.t0) * s.shift_y⟩
  else p

/-- Counterexample to C2 as stated: for Shift with `shift_x = 4`,
`start_at_t = 0`, `end_at_t = 2`, the sample at `t = 2` (i.e.
`t ≥ end_at_t`) gets offset `4` from the code (`shift_x` is the total
displacement, the code multiplies by `slope = shift_x / (end − start)`),
while the claim's formula `(end_at_t − start_at_t) × shift_x` predicts
`8`. -/
theorem shift_rate_vs_total_counterexample :
    ShiftEyeTrackingData.execute ⟨4, 0, 0, 2⟩ [⟨2, 0, 0⟩]
      = .ok [⟨2, 4, 0⟩] ∧
    shiftRowSpecClaim ⟨4, 0, 0, 2⟩ ⟨2, 0, 0⟩ = ⟨2, 8, 0⟩ ∧
    (⟨2, 4, 0⟩ : Sample) ≠ ⟨2, 8, 0⟩ := by
  refine ⟨?_, ?_, ?_⟩
  · norm_num [ShiftEyeTrackingData.execute, ShiftEyeTrackingData.row]
  · norm_num [shiftRowSpecClaim]
  · intro h
    have := congrArg Sample.x h
    norm_num at this

/-- Claim C2 (amended): for a Shift with `start_at_t < end_at_t` applied to a
batch, every sample with `t < start_at_t` keeps x and y, every sample
with `t ≥ start_at_t` gets
`min(t − start_at_t, end_at_t − start_at_t) × shift_x / (end_at_t − start_at_t)`
added to x (and the analogous amount to y) — `shift_x` is the total
displacement, reached exactly: for `t ≥ end_at_t` the offset is exactly
`shift_x` on x and `shift_y` on y, saturated. -/
theorem shift_ramp_saturates_at_total (s : ShiftEyeTrackingData)
    (data out : List Sample) (h : s.t0 < s.t1)
    (hex : s.execute data = .ok out) :
    out = data.map s.row ∧
    ∀ p : Sample,
      (p.t < s.t0 → s.row p = p) ∧
      (s.t0 ≤ p.t →
        (s.row p).x
          = p.x + min (p.t - s.t0) (s.t1 - s.t0) * (s.shift_x / (s.t1 - s.t0)) ∧
        (s.row p).y
          = p.y + min (p.t - s.t0) (s.t1 - s.t0) * (s.shift_y / (s.t1 - s.t0))) ∧
      (s.t1 ≤ p.t →
        (s.row p).x = p.x + s.shift_x ∧ (s.row p).y = p.y + s.shift_y) := by
  have hne : s.t1 - s.t0 ≠ 0 := sub_ne_zero.mpr (ne_of_gt h)
  constructor
  · unfold ShiftEyeTrackingData.execute at hex
    rw [if_neg hne] at hex
    exact (Except.ok.inj hex).symm
  · intro p
    refine ⟨?_, ?_, ?_⟩
    · intro hlt
      rw [shiftRow_eq_off]
      have hx : s.offX p.t = 0 := by
        unfold ShiftEyeTrackingData.offX
        rw [if_neg (by linarith)]
      have hy : s.offY p.t = 0 := by
        unfold ShiftEyeTrackingData.offY
        rw [if_neg (by linarith)]
      ext <;> simp [hx, hy]
    · intro hge
      rw [shiftRow_eq_off]
      rcases lt_or_eq_of_le hge with hgt | heq
      · unfold ShiftEyeTrackingData.offX ShiftEyeTrackingData.offY
        rw [if_pos hgt, if_pos hgt]
        exact ⟨rfl, rfl⟩
      · have hoffx : s.offX p.t = 0 := by
          unfold ShiftEyeTrackingData.offX
          rw [if_neg (by rw [← heq]; exact lt_irrefl _)]
        have hoffy : s.offY p.t = 0 := by
          unfold ShiftEyeTrackingData.offY
          rw [if_neg (by rw [← heq]; exact lt_irrefl _)]
        have hmin : min (p.t - s.t0) (s.t1 - s.t0) = 0 := by
          rw [← heq]
          simp only [sub_self]
          exact min_eq_left (by linarith)
        rw [hoffx, hoffy, hmin]
        constructor <;> simp
    · intro hend
      have hgt : s.t0 < p.t := lt_of_lt_of_le h hend
      have hmin : min (p.t - s.t0) (s.t1 - s.t0) = s.t1 - s.t0 :=
        min_eq_right (by linarith)
      rw [shiftRow_eq_off]
      unfold ShiftEyeTrackingData.offX ShiftEyeTrackingData.offY
      rw [if_pos hgt, if_pos hgt, hmin]
      constructor <;> simp <;>
        rw [mul_comm, div_mul_cancel₀ _ hne]

/-- Witness for C2 (amended): Shift with total displacement
`shift_x = 4`, `shift_y = 2` over the window `[0, 2]` maps the sample
`(t,x,y) = (5,1,1)` (past the window end) to `(5, 5, 3)` — saturated at
exactly `shift_x`/`shift_y`. -/
theorem shift_ramp_saturates_at_total_witness :
    ([⟨5, 5, 3⟩] : List Sample)
      = ([⟨5, 1, 1⟩] : List Sample).map
          (ShiftEyeTrackingData.row ⟨4, 2, 0, 2⟩) :=
  (shift_ramp_saturates_at_total ⟨4, 2, 0, 2⟩ [⟨5, 1, 1⟩] [⟨5, 5, 3⟩]
      (by norm_num)
      (by norm_num [ShiftEyeTrackingData.execute,
        ShiftEyeTrackingData.row])).1

/-- Claim C4: both Shift and Jerk leave the `t` column of every row unchanged,
so windowing decisions read the original `t` values, and composing the
two (in either order, whenever Shift is executable, i.e. `t0 < t1`)
yields x/y equal to the original values plus the sum of the two
transforms' offsets computed independently on the original `t` column. -/
theorem distortions_preserve_t_and_compose (s : ShiftEyeTrackingData)
    (j : JerkEyeTrackingData) (data : List Sample) :
    (∀ p : Sample, (s.row p).t = p.t ∧ (j.row p).t = p.t) ∧
    (s.t0 < s.t1 →
      s.execute (j.execute data)
        = .ok (data.map (fun p =>
            ⟨p.t, p.x + s.offX p.t + j.offX p.t,
                  p.y + s.offY p.t + j.offY p.t⟩)) ∧
      Except.map j.execute (s.execute data)
        = .ok (data.map (fun p =>
            ⟨p.t, p.x + s.offX p.t + j.offX p.t,
                  p.y + s.offY p.t + j.offY p.t⟩))) := by
  constructor
  · intro p
    exact ⟨rfl, rfl⟩
  · intro h
    have hne : s.t1 - s.t0 ≠ 0 := sub_ne_zero.mpr (ne_of_gt h)
    constructor
    · unfold ShiftEyeTrackingData.execute JerkEyeTrackingData.execute
      rw [if_neg hne, List.map_map]
      congr 1
      refine List.map_congr_left ?_
      intro p _
      show s.row (j.row p) = _
      rw [jerkRow_eq_off, shiftRow_eq_off]
      ext <;> simp <;> ring
    · unfold ShiftEyeTrackingData.execute JerkEyeTrackingData.execute
      rw [if_neg hne]
      show Except.ok (List.map j.row (List.map s.row data)) = _
      rw [List.map_map]
      congr 1
      refine List.map_congr_left ?_
      intro p _
      show j.row (s.row p) = _
      rw [shiftRow_eq_off, jerkRow_eq_off]

/-- Witness for C4: Shift over window `[0, 1]` with total x-displacement
2 and a Jerk of `+1` on y at `t = 0`, composed on a single sample at
`t = 3`, produce the summed offsets. -/
theorem distortions_preserve_t_and_compose_witness :
    ShiftEyeTrackingData.execute ⟨2, 0, 0, 1⟩
        (JerkEyeTrackingData.execute ⟨0, 0, 1⟩ [⟨3, 0, 0⟩])
      = .ok [⟨3,
          (0 : ℚ) + ShiftEyeTrackingData.offX ⟨2, 0, 0, 1⟩ 3
            + JerkEyeTrackingData.offX ⟨0, 0, 1⟩ 3,
          (0 : ℚ) + ShiftEyeTrackingData.offY ⟨2, 0, 0, 1⟩ 3
            + JerkEyeTrackingData.offY ⟨0, 0, 1⟩ 3⟩] := by
  have h :=
    (distortions_preserve_t_and_compose ⟨2, 0, 0, 1⟩ ⟨0, 0, 1⟩
      [⟨3, 0, 0⟩]).2 (by norm_num)
  simpa using h.1

/-- Claim C6: construction fails eagerly with the configuration error: a
non-empty `sigmas` (resp. `base_probabilities`, `covariances`) whose
length differs from `len(locs)` makes `EyeTrackerFakeDataSource.__init__`
fail, and `start_at_t > end_at_t` makes `ShiftEyeTrackingData.__init__`
fail. -/
theorem construction_validation_eager :
    (∀ (locs : List (ℚ × ℚ)) (sigmas bp : List ℚ) (cov : List Mat2)
        (dt sdt : ℚ) (r : Option Ranges) (p : ℚ),
        sigmas ≠ [] → sigmas.length ≠ locs.length →
        EyeTrackerFakeDataSource.init locs sigmas bp cov dt sdt r p
          = .error .configError) ∧
    (∀ (locs : List (ℚ × ℚ)) (sigmas bp : List ℚ) (cov : List Mat2)
        (dt sdt : ℚ) (r : Option Ranges) (p : ℚ),
        bp ≠ [] → bp.length ≠ locs.length →
        EyeTrackerFakeDataSource.init locs sigmas bp cov dt sdt r p
          = .error .configError) ∧
    (∀ (locs : List (ℚ × ℚ)) (sigmas bp : List ℚ) (cov : List Mat2)
        (dt sdt : ℚ) (r : Option Ranges) (p : ℚ),
        cov ≠ [] → cov.length ≠ locs.length →
        EyeTrackerFakeDataSource.init locs sigmas bp cov dt sdt r p
          = .error .configError) ∧
    (∀ sx sy t0 t1 : ℚ, t1 < t0 →
        ShiftEyeTrackingData.init sx sy t0 t1 = .error .configError) := by
  refine ⟨?_, ?_, ?_, ?_⟩
  · intro locs sigmas bp cov dt sdt r p h1 h2
    simp [EyeTrackerFakeDataSource.init, h1, h2]
  · intro locs sigmas bp cov dt sdt r p h1 h2
    by_cases hs : sigmas = [] <;>
      by_cases hsl : sigmas.length = locs.length <;>
      simp [EyeTrackerFakeDataSource.init, hs, hsl, h1, h2]
  · intro locs sigmas bp cov dt sdt r p h1 h2
    by_cases hs : sigmas = [] <;>
      by_cases hsl : sigmas.length = locs.length <;>
      by_cases hb : bp = [] <;>
      by_cases hbl : bp.length = locs.length <;>
      simp [EyeTrackerFakeDataSource.init, hs, hsl, hb, hbl, h1, h2]
  · intro sx sy t0 t1 h
    unfold ShiftEyeTrackingData.init
    rw [if_neg (not_le.mpr h)]

/-- Witness for C6: with 2 locations, a `sigmas` (resp.
`base_probabilities`, `covariances`) list of length 3 fails construction;
`Shift` with `start_at_t = 10 > end_at_t = 5` fails construction. -/
theorem construction_validation_eager_witness :
    EyeTrackerFakeDataSource.init [(0, 0), (1, 1)] [1, 1, 1] [] []
        200 50 none (1/10) = .error .configError ∧
    EyeTrackerFakeDataSource.init [(0, 0), (1, 1)] [] [1, 1, 1] []
        200 50 none (1/10) = .error .configError ∧
    EyeTrackerFakeDataSource.init [(0, 0), (1, 1)] [] []
        [ident2, ident2, ident2] 200 50 none (1/10)
      = .error .configError ∧
    ShiftEyeTrackingData.init 0 0 10 5 = .error .configError :=
  ⟨construction_validation_eager.1 _ _ _ _ _ _ _ _
      (by simp) (by simp),
   construction_validation_eager.2.1 _ _ _ _ _ _ _ _
      (by simp) (by simp),
   construction_validation_eager.2.2.1 _ _ _ _ _ _ _ _
      (by simp) (by simp),
   construction_validation_eager.2.2.2 0 0 10 5 (by norm_num)⟩

/-- Helper: `cumsumFrom` preserves length. -/
theorem cumsumFrom_length (acc : ℚ) (l : List ℚ) :
    (cumsumFrom acc l).length = l.length := by
  induction l generalizing acc with
  | nil => rfl
  | cons v vs ih => simp [cumsumFrom, ih]

/-- Helper: the last running sum is the accumulator plus the list total. -/
theorem cumsumFrom_getLast (l : List ℚ) (acc : ℚ) (h : l ≠ []) :
    (cumsumFrom acc l).getLast? = some (acc + l.sum) := by
  induction l generalizing acc with
  | nil => exact absurd rfl h
  | cons v vs ih =>
    cases vs with
    | nil => simp [cumsumFrom]
    | cons w ws =>
      have h1 : cumsumFrom acc (v :: w :: ws)
          = (acc + v) :: cumsumFrom (acc + v) (w :: ws) := rfl
      have h2 : cumsumFrom (acc + v) (w :: ws)
          = (acc + v + w) :: cumsumFrom (acc + v + w) ws := rfl
      rw [h1, h2, List.getLast?_cons_cons, ← h2, ih (acc + v) (by simp)]
      simp only [List.sum_cons, Option.some.injEq]
      ring

/-- Helper: running sums of non-negative values are non-decreasing. -/
theorem cumsumFrom_chain (l : List ℚ) :
    ∀ acc : ℚ, (∀ w ∈ l, 0 ≤ w) →
      List.Chain' (· ≤ ·) (cumsumFrom acc l) := by
  induction l with
  | nil => intro acc _; simp [cumsumFrom]
  | cons v vs ih =>
    intro acc h
    cases vs with
    | nil => simp [cumsumFrom]
    | cons w ws =>
      have h1 : cumsumFrom acc (v :: w :: ws)
          = (acc + v) :: (acc + v + w) :: cumsumFrom (acc + v + w) ws := rfl
      rw [h1, List.chain'_cons]
      constructor
      · have hw : 0 ≤ w := h w (by simp)
        linarith
      · have h2 := ih (acc + v) (fun u hu => h u (List.mem_cons_of_mem _ hu))
        rw [show cumsumFrom (acc + v) (w :: ws)
            = (acc + v + w) :: cumsumFrom (acc + v + w) ws from rfl] at h2
        exact h2

/-- Counterexample to C8 as stated: with `base_probabilities = [2, 2]`
the constructor stores `_cs = cumsum([2, 2]) = [2, 4]` — no
normalization happens, the stored weights sum to `4`, not `1`. -/
theorem base_probabilities_not_normalized_counterexample :
    EyeTrackerFakeDataSource.init [(0, 0), (1, 1)] [] [2, 2] [] 200 50
        (some ⟨0, 1, 0, 1⟩) (1/10)
      = .ok ⟨[(0, 0), (1, 1)], [1, 1], [2, 4], [ident2, ident2],
             ⟨0, 1, 0, 1⟩, 200, 50, 1/10⟩ ∧
    ([2, 4] : List ℚ).getLast? = some 4 ∧ ((4 : ℚ) ≠ 1) := by
  refine ⟨?_, by simp, by norm_num⟩
  simp [EyeTrackerFakeDataSource.init, cumsum, cumsumFrom, List.replicate]
  norm_num

/-- Claim C8 (amended): the supplied `base_probabilities` are NOT normalized at
construction: the stored table is the raw running-sum `cumsum`, which
(for non-negative weights) is non-decreasing, has the same length as the
input, and ends at the raw total of the supplied weights (not at 1);
selection stays proportional to the supplied weights because the
selection draw is uniform over `[0, cs[-1]]`. -/
theorem cumulative_table_unnormalized (bp : List ℚ)
    (hnn : ∀ w ∈ bp, 0 ≤ w) (hne : bp ≠ []) :
    List.Chain' (· ≤ ·) (cumsum bp) ∧
    (cumsum bp).getLast? = some bp.sum ∧
    (cumsum bp).length = bp.length ∧
    (∀ (locs : List (ℚ × ℚ)) (sigmas : List ℚ) (cov : List Mat2)
        (dt sdt p : ℚ) (r : Ranges) (c : EyeTrackerFakeDataSource),
        EyeTrackerFakeDataSource.init locs sigmas bp cov dt sdt (some r) p
          = .ok c →
        c.cs = cumsum bp) := by
  refine ⟨cumsumFrom_chain bp 0 hnn, ?_, cumsumFrom_length 0 bp, ?_⟩
  · simpa using cumsumFrom_getLast bp 0 hne
  · intro locs sigmas cov dt sdt p r c hok
    by_cases hs : sigmas = [] <;>
      by_cases hsl : sigmas.length = locs.length <;>
      by_cases hbl : bp.length = locs.length <;>
      by_cases hc : cov = [] <;>
      by_cases hcl : cov.length = locs.length <;>
      simp [EyeTrackerFakeDataSource.init, hs, hsl, hbl, hc, hcl, hne]
        at hok <;>
      (subst hok; rfl)

/-- Witness for C8 (amended): the table for `base_probabilities = [2, 2]`
is non-decreasing and ends at the raw total `4`. -/
theorem cumulative_table_unnormalized_witness :
    List.Chain' (· ≤ ·) (cumsum [2, 2]) ∧
    (cumsum [2, 2]).getLast? = some ([2, 2] : List ℚ).sum := by
  have h := cumulative_table_unnormalized [2, 2]
    (by intro w hw; rcases List.mem_pair.mp hw with rfl | rfl <;> norm_num)
    (by simp)
  exact ⟨h.1, h.2.1⟩

/-- Counterexample to C9 as stated: constructing the generator with zero
components, an explicit `ranges`, and
`uniform_random_fixations_probability = 1/2` (so NOT `1.0`) succeeds —
the claim says every zero-component construction except `p = 1.0` with
explicit ranges must fail. -/
theorem zero_components_accepted_counterexample :
    EyeTrackerFakeDataSource.init [] [] [] [] 200 50
        (some ⟨0, 1, 0, 1⟩) (1/2)
      = .ok ⟨[], [], [], [], ⟨0, 1, 0, 1⟩, 200, 50, 1/2⟩ ∧
    ((1/2 : ℚ) ≠ 1) := by
  constructor
  · simp [EyeTrackerFakeDataSource.init, arangePlusOne]
  · norm_num

/-- Claim C9 (amended): with zero components, construction succeeds whenever an
explicit `ranges` is supplied — for every value of
`uniform_random_fixations_probability` — and fails (with the `ValueError`
of `max` on the empty default sigma list, not a validation error) exactly
when `ranges` must be derived. -/
theorem zero_components_construction (dt sdt p : ℚ) (r : Ranges) :
    EyeTrackerFakeDataSource.init [] [] [] [] dt sdt (some r) p
      = .ok ⟨[], [], [], [], r, dt, sdt, p⟩ ∧
    EyeTrackerFakeDataSource.init [] [] [] [] dt sdt none p
      = .error .valueError := by
  constructor <;> simp [EyeTrackerFakeDataSource.init, arangePlusOne, pyMax]
